import Mathlib

/-!
A shallow embedding of the probabilistic-micropayment settlement core of
go-livepeer (package `pm`, file `sendermonitor.go`, plus the parts of the
`eth` transaction manager pinned by its tests), together with theorems that
settle the specification claims about it.

Conventions of the embedding:
* `math/big` integers become `Int`; `big.Int.Div` is Euclidean division,
  which is Lean's `/` on `Int` (`Int.ediv`).
* Go functions returning `(value, error)` become functions returning a pair
  of the value and an `Option String` error, mirroring the fact that Go
  always returns both components; functions returning a value *or* an
  error become `Except String _`.
* The mutable `senderMonitor` state (the `senders` map) is threaded
  explicitly: each method returns the updated monitor.
* The impure clock `unixNow()` becomes an explicit `now` argument.
-/

namespace PM

/-- An Ethereum address, modelled abstractly as a natural number. -/
abbrev Address := Nat

/-- The reserve portion of on-chain sender info (`pm.Reserve`). -/
structure Reserve where
  fundsRemaining : Int
  claimedInCurrentRound : Int
deriving DecidableEq

/-- On-chain sender info as returned by `SenderManager.GetSenderInfo`. -/
structure SenderInfo where
  reserve : Reserve
  withdrawRound : Int
deriving DecidableEq

/-- A signed winning ticket (`pm.SignedTicket`): the embedded `Ticket`'s
`Sender` and `FaceValue` are the fields the monitor reads; `Sig` and
`RecipientRand` are carried opaquely. -/
structure SignedTicket where
  sender : Address
  faceValue : Int
  sig : Nat
  recipientRand : Nat
deriving DecidableEq

/-- The `SenderManager` collaborator. Each call returns a value together
with an optional error, mirroring Go's two return values: the caller is
free to inspect or ignore either component, exactly as the source does. -/
structure SenderManager where
  getSenderInfo : Address → SenderInfo × Option String
  claimedReserve : Address → Address → Int × Option String

/-- The `TimeManager` collaborator, restricted to the two queries the
monitor makes. -/
structure TimeManager where
  lastInitializedRound : Int
  getTranscoderPoolSize : Int

/-- The `Broker` collaborator: `redeemWinningTicket` returns a transaction
handle or an error; `checkTx` waits on the handle and returns an optional
error. Handles are opaque naturals. -/
structure Broker where
  redeemWinningTicket : SignedTicket → Except String Nat
  checkTx : Nat → Option String

/-- Per-sender cached state (`remoteSender`): the pending amount, the
ticket queue contents (the queue's persistent store), and the last-access
timestamp.  The `done` channel has no counterpart in the sequential
embedding. -/
structure remoteSender where
  pendingAmount : Int
  queue : List SignedTicket
  lastAccess : Int
deriving DecidableEq

/-- The `senderMonitor` with its collaborators and its mutable `senders`
map.  `storeAdd` models the ticket store behind `ticketQueue.Add`: it
decides, per ticket, whether the persistent store accepts the append. -/
structure senderMonitor where
  claimant : Address
  broker : Broker
  smgr : SenderManager
  tm : TimeManager
  storeAdd : SignedTicket → Bool
  senders : Address → Option remoteSender

/-- `NewSenderMonitor`: a fresh monitor with an empty sender cache. -/
def NewSenderMonitor (claimant : Address) (broker : Broker) (smgr : SenderManager)
    (tm : TimeManager) (storeAdd : SignedTicket → Bool) : senderMonitor :=
  { claimant := claimant, broker := broker, smgr := smgr, tm := tm
    storeAdd := storeAdd, senders := fun _ => none }

instance {ε α : Type} [DecidableEq ε] [DecidableEq α] : DecidableEq (Except ε α)
  | .error e, .error f =>
    if h : e = f then .isTrue (by rw [h]) else .isFalse (by simp [h])
  | .error _, .ok _ => .isFalse (by simp)
  | .ok _, .error _ => .isFalse (by simp)
  | .ok a, .ok b =>
    if h : a = b then .isTrue (by rw [h]) else .isFalse (by simp [h])

/-- The pending amount recorded for `a` (0 when `a` is not cached, matching
the fresh entry `ensureCache` would create). -/
def pendingOf (sm : senderMonitor) (a : Address) : Int :=
  match sm.senders a with
  | some rs => rs.pendingAmount
  | none => 0

/-- The queued tickets recorded for `a` (empty when `a` is not cached). -/
def queueOf (sm : senderMonitor) (a : Address) : List SignedTicket :=
  match sm.senders a with
  | some rs => rs.queue
  | none => []

/-- Write one entry of the senders map. -/
def setSender (sm : senderMonitor) (a : Address) (rs : remoteSender) : senderMonitor :=
  { sm with senders := fun x => if x = a then some rs else sm.senders x }

/-- The entry `sm.senders[a]` holds right after `ensureCache(a)` ran at
time `now`: the existing entry with `lastAccess` refreshed, or the fresh
entry `cache` creates (`pendingAmount = 0`, queue started empty). -/
def cachedSender (sm : senderMonitor) (a : Address) (now : Int) : remoteSender :=
  match sm.senders a with
  | some rs => { rs with lastAccess := now }
  | none => { pendingAmount := 0, queue := [], lastAccess := now }

/-- `ensureCache`: create the remote sender on first reference (via `cache`)
and update `lastAccess` in all cases. -/
def ensureCache (sm : senderMonitor) (a : Address) (now : Int) : senderMonitor :=
  setSender sm a (cachedSender sm a now)

/-- `AddFloat`: subtracting from `pendingAmount` = adding to max float.
Fails when `pendingAmount < amount`. -/
def AddFloat (sm : senderMonitor) (addr : Address) (amount : Int) (now : Int) :
    senderMonitor × Option String :=
  let sm1 := ensureCache sm addr now
  let rs := cachedSender sm addr now
  if rs.pendingAmount < amount then
    (sm1, some "cannot subtract from insufficient pendingAmount")
  else
    (setSender sm1 addr { rs with pendingAmount := rs.pendingAmount - amount }, none)

/-- `SubFloat`: adding to `pendingAmount` = subtracting from max float.
Never fails. -/
def SubFloat (sm : senderMonitor) (addr : Address) (amount : Int) (now : Int) :
    senderMonitor :=
  let sm1 := ensureCache sm addr now
  let rs := cachedSender sm addr now
  setSender sm1 addr { rs with pendingAmount := rs.pendingAmount + amount }

/-- `reserveAlloc`: `(FundsRemaining + ClaimedInCurrentRound) / poolSize -
claimedReserve(addr, claimant)`, and `0` when the pool size is zero.  Note
that, as in the source, the error component of `claimedReserve` is bound
and then never inspected. -/
def reserveAlloc (sm : senderMonitor) (addr : Address) : Except String Int :=
  let info := (sm.smgr.getSenderInfo addr).1
  match (sm.smgr.getSenderInfo addr).2 with
  | some e => .error e
  | none =>
    let claimed := (sm.smgr.claimedReserve addr sm.claimant).1
    let poolSize := sm.tm.getTranscoderPoolSize
    if poolSize = 0 then .ok 0
    else .ok ((info.reserve.fundsRemaining + info.reserve.claimedInCurrentRound) / poolSize
              - claimed)

/-- The private helper `maxFloat`: `reserveAlloc - pendingAmount` (caller
holds the lock, the sender is cached). -/
def maxFloat (sm : senderMonitor) (addr : Address) : Except String Int :=
  match reserveAlloc sm addr with
  | .error e => .error e
  | .ok ra => .ok (ra - pendingOf sm addr)

/-- Public `MaxFloat`: `ensureCache` then the `maxFloat` helper. -/
def MaxFloat (sm : senderMonitor) (addr : Address) (now : Int) :
    senderMonitor × Except String Int :=
  let sm1 := ensureCache sm addr now
  (sm1, maxFloat sm1 addr)

/-- `QueueTicket`: `ensureCache` then `queue.Add(ticket)`.
Modelled from the spec: the `ticketQueue` type itself (ticketqueue.go) is
not among the sources; per the spec its `Add` appends the ticket to the
persistent store and fails only on store failure, which `storeAdd`
decides. -/
def QueueTicket (sm : senderMonitor) (t : SignedTicket) (now : Int) :
    senderMonitor × Option String :=
  let sm1 := ensureCache sm t.sender now
  let rs := cachedSender sm t.sender now
  if sm.storeAdd t then
    (setSender sm1 t.sender { rs with queue := rs.queue ++ [t] }, none)
  else
    (sm1, some "ticket store error")

/-- Go's `big.Int.Int64()` for values that fit in 64 bits: reduction into
`[-2^63, 2^63)`.  (For values outside that range `math/big` documents the
result as undefined; the theorems below only rely on the in-range case.) -/
def toInt64 (x : Int) : Int :=
  (x + 2 ^ 63) % 2 ^ 64 - 2 ^ 63

/-- `ValidateSender`: fetch sender info and fail when
`WithdrawRound.Int64() != 0 && WithdrawRound <= lastInitializedRound + 1`. -/
def ValidateSender (sm : senderMonitor) (addr : Address) : Option String :=
  let info := (sm.smgr.getSenderInfo addr).1
  match (sm.smgr.getSenderInfo addr).2 with
  | some e => some e
  | none =>
    let maxWithdrawRound := sm.tm.lastInitializedRound + 1
    if toInt64 info.withdrawRound ≠ 0 ∧ info.withdrawRound ≤ maxWithdrawRound then
      some "deposit and reserve is set to unlock soon"
    else
      none

/-- Observable float-accounting events of one redemption attempt, in
order: `SubFloat`, the deferred `AddFloat`, and re-queueing via
`QueueTicket`. -/
inductive FloatEvent where
  | sub (amount : Int)
  | add (amount : Int)
  | queued
deriving DecidableEq

/-- `redeemWinningTicket`: compute `MaxFloat`; re-queue on zero or
insufficient max float; otherwise `SubFloat`, call the broker, wait on the
transaction, and in all three exit paths run the deferred `AddFloat`,
whose error (if any) overwrites the path's error, exactly as the `defer`
in the source does.  The third component records the float events of the
attempt. -/
def redeemWinningTicket (sm : senderMonitor) (t : SignedTicket) (now : Int) :
    senderMonitor × Option String × List FloatEvent :=
  let r := MaxFloat sm t.sender now
  let sm1 := r.1
  match r.2 with
  | .error e => (sm1, some e, [])
  | .ok mf =>
    if mf ≤ 0 then
      ((QueueTicket sm1 t now).1, some "max float is zero", [.queued])
    else if mf < t.faceValue then
      ((QueueTicket sm1 t now).1, some "insufficient max float", [.queued])
    else
      let sm2 := SubFloat sm1 t.sender t.faceValue now
      match sm2.broker.redeemWinningTicket t with
      | .error e =>
        let a := AddFloat sm2 t.sender t.faceValue now
        (a.1, some (a.2.getD e), [.sub t.faceValue, .add t.faceValue])
      | .ok tx =>
        match sm2.broker.checkTx tx with
        | some e =>
          let a := AddFloat sm2 t.sender t.faceValue now
          (a.1, some (a.2.getD e), [.sub t.faceValue, .add t.faceValue])
        | none =>
          let a := AddFloat sm2 t.sender t.faceValue now
          (a.1, a.2, [.sub t.faceValue, .add t.faceValue])

/-- One public call in an interleaving of the float-mutating operations,
with the clock value it observes. -/
inductive MonitorOp where
  | addF (addr : Address) (amount : Int) (now : Int)
  | subF (addr : Address) (amount : Int) (now : Int)
  | queueT (t : SignedTicket) (now : Int)
deriving DecidableEq

/-- Apply one operation to the monitor (the error result of `AddFloat` /
`QueueTicket` is dropped; only the state evolution matters here). -/
def applyOp (sm : senderMonitor) : MonitorOp → senderMonitor
  | .addF a amount now => (AddFloat sm a amount now).1
  | .subF a amount now => SubFloat sm a amount now
  | .queueT t now => (QueueTicket sm t now).1

/-- Run a finite sequence of operations. -/
def runOps (sm : senderMonitor) (ops : List MonitorOp) : senderMonitor :=
  ops.foldl applyOp sm

/-- The amounts carried by an operation are non-negative. -/
def opAmountNonneg : MonitorOp → Prop
  | .addF _ amount _ => 0 ≤ amount
  | .subF _ amount _ => 0 ≤ amount
  | .queueT t _ => 0 ≤ t.faceValue

instance : DecidablePred opAmountNonneg := fun op =>
  match op with
  | .addF _ amount _ => inferInstanceAs (Decidable (0 ≤ amount))
  | .subF _ amount _ => inferInstanceAs (Decidable (0 ≤ amount))
  | .queueT t _ => inferInstanceAs (Decidable (0 ≤ t.faceValue))

/-- Modelled from the spec: the `GasPriceMonitor` collaborator of the
`eth` transaction manager (not among the sources), restricted to the
`maxGasPrice` field the claims mention; `none` is Go's nil. -/
structure GasPriceMonitor where
  maxGasPrice : Option Int

/-- Modelled from the spec: a dynamic-fee transaction with the fields of
`types.DynamicFeeTx` that `newStubDynamicFeeTx` populates.  Two
transactions have equal hashes exactly when all fields are equal. -/
structure Transaction where
  nonce : Nat
  gasTipCap : Int
  gasFeeCap : Int
  gas : Nat
  toAddr : Address
  value : Int
  data : List Nat
deriving DecidableEq

/-- Modelled from the spec: `TransactionManager.newAdjustedTx`
(transactionmanager.go is not among the sources).  The spec says the gas
fee cap is replaced by `maxGasPrice` when it exceeds it; its in-source
test `TestNewAdjustedTx` however asserts that with `gasFeeCap = 1000` and
`maxGasPrice = 1100` the result has `gasFeeCap = 1100` and a different
hash, so the adjustment applies whenever `maxGasPrice` is non-nil, and
the model follows the test where the two disagree.  All other fields are
copied unchanged. -/
def newAdjustedTx (gpm : GasPriceMonitor) (tx : Transaction) : Transaction :=
  match gpm.maxGasPrice with
  | none => tx
  | some m => { tx with gasFeeCap := m }

/-- Modelled from the spec: `applyPriceBump` (transactionmanager.go is not
among the sources): `newCap = oldCap * (100 + priceBump) / 100`,
truncating, computed with `big.Int` arithmetic (Euclidean division, which
agrees with truncation on the non-negative inputs the claims quantify
over).  Its in-source test `TestApplyPriceBump` pins
`applyPriceBump 500 11 = 555` etc., which this definition satisfies. -/
def applyPriceBump (x : Int) (priceBump : Int) : Int :=
  x * (100 + priceBump) / 100

/-! ### Concrete instances used by witnesses and counterexamples -/

/-- A sender info record with a healthy reserve and no pending withdraw. -/
def info0 : SenderInfo :=
  { reserve := { fundsRemaining := 100, claimedInCurrentRound := 20 }, withdrawRound := 0 }

/-- A sender manager that always succeeds: reserve 100 + 20, claimed 5. -/
def smgr0 : SenderManager :=
  { getSenderInfo := fun _ => (info0, none)
    claimedReserve := fun _ _ => (5, none) }

/-- A time manager: last initialized round 10, transcoder pool size 3. -/
def tm0 : TimeManager := { lastInitializedRound := 10, getTranscoderPoolSize := 3 }

/-- A broker whose redemptions and confirmations always succeed. -/
def broker0 : Broker := { redeemWinningTicket := fun _ => .ok 0, checkTx := fun _ => none }

/-- A fresh monitor over the always-succeeding collaborators. -/
def sm0 : senderMonitor := NewSenderMonitor 0 broker0 smgr0 tm0 (fun _ => true)

/-- A sender manager whose `ClaimedReserve` always fails. -/
def smgrClaimErr : SenderManager :=
  { getSenderInfo := fun _ => (info0, none)
    claimedReserve := fun _ _ => (5, some "ClaimedReserve error") }

/-- A fresh monitor whose `ClaimedReserve` collaborator always fails. -/
def smClaimErr : senderMonitor := NewSenderMonitor 0 broker0 smgrClaimErr tm0 (fun _ => true)

/-- A sender info record whose withdraw round is set (to 5). -/
def info8 : SenderInfo :=
  { reserve := { fundsRemaining := 100, claimedInCurrentRound := 20 }, withdrawRound := 5 }

/-- A sender manager reporting withdraw round 5. -/
def smgr8 : SenderManager :=
  { getSenderInfo := fun _ => (info8, none)
    claimedReserve := fun _ _ => (5, none) }

/-- A fresh monitor over a sender whose withdraw round is 5. -/
def sm8 : senderMonitor := NewSenderMonitor 0 broker0 smgr8 tm0 (fun _ => true)

/-- A fresh monitor whose ticket store rejects every append. -/
def smNoStore : senderMonitor := NewSenderMonitor 0 broker0 smgr0 tm0 (fun _ => false)

/-- A winning ticket with face value 30 from sender 9. -/
def ticket0 : SignedTicket := { sender := 9, faceValue := 30, sig := 0, recipientRand := 0 }

/-- A winning ticket with face value 50 from sender 9 (more than the max
float 35 that `sm0`'s collaborators yield). -/
def ticketBig : SignedTicket := { sender := 9, faceValue := 50, sig := 0, recipientRand := 0 }

/-- A short interleaving of the float-mutating operations. -/
def ops0 : List MonitorOp :=
  [.subF 9 5 0, .addF 9 3 1, .queueT ticket0 2, .addF 9 9 3]

/-- The stub dynamic-fee transaction of `TestNewAdjustedTx`: tip cap 100,
fee cap 1000. -/
def tx1006 : Transaction :=
  { nonce := 1, gasTipCap := 100, gasFeeCap := 1000, gas := 1000000, toAddr := 7
    value := 100, data := [] }

example : applyPriceBump 500 0 = 500 := by decide
example : applyPriceBump 500 11 = 555 := by decide
example : applyPriceBump 500 17 = 585 := by decide
example : applyPriceBump 500 101 = 1005 := by decide
example : applyPriceBump 50 11 = 55 := by decide

/-! ### State-manipulation lemmas -/

@[simp]
theorem setSender_claimant (sm : senderMonitor) (a : Address) (rs : remoteSender) :
    (setSender sm a rs).claimant = sm.claimant := rfl

@[simp]
theorem setSender_broker (sm : senderMonitor) (a : Address) (rs : remoteSender) :
    (setSender sm a rs).broker = sm.broker := rfl

@[simp]
theorem setSender_smgr (sm : senderMonitor) (a : Address) (rs : remoteSender) :
    (setSender sm a rs).smgr = sm.smgr := rfl

@[simp]
theorem setSender_tm (sm : senderMonitor) (a : Address) (rs : remoteSender) :
    (setSender sm a rs).tm = sm.tm := rfl

@[simp]
theorem setSender_storeAdd (sm : senderMonitor) (a : Address) (rs : remoteSender) :
    (setSender sm a rs).storeAdd = sm.storeAdd := rfl

theorem cachedSender_pendingAmount (sm : senderMonitor) (a : Address) (now : Int) :
    (cachedSender sm a now).pendingAmount = pendingOf sm a := by
  cases h : sm.senders a <;> simp [cachedSender, pendingOf, h]

theorem cachedSender_queue (sm : senderMonitor) (a : Address) (now : Int) :
    (cachedSender sm a now).queue = queueOf sm a := by
  cases h : sm.senders a <;> simp [cachedSender, queueOf, h]

theorem pendingOf_setSender (sm : senderMonitor) (a : Address) (rs : remoteSender)
    (b : Address) :
    pendingOf (setSender sm a rs) b = if b = a then rs.pendingAmount else pendingOf sm b := by
  by_cases h : b = a <;> simp [pendingOf, setSender, h]

theorem queueOf_setSender (sm : senderMonitor) (a : Address) (rs : remoteSender)
    (b : Address) :
    queueOf (setSender sm a rs) b = if b = a then rs.queue else queueOf sm b := by
  by_cases h : b = a <;> simp [queueOf, setSender, h]

@[simp]
theorem pendingOf_ensureCache (sm : senderMonitor) (a : Address) (now : Int) (b : Address) :
    pendingOf (ensureCache sm a now) b = pendingOf sm b := by
  rw [ensureCache, pendingOf_setSender]
  by_cases h : b = a
  · subst h; simp [cachedSender_pendingAmount]
  · simp [h]

@[simp]
theorem queueOf_ensureCache (sm : senderMonitor) (a : Address) (now : Int) (b : Address) :
    queueOf (ensureCache sm a now) b = queueOf sm b := by
  rw [ensureCache, queueOf_setSender]
  by_cases h : b = a
  · subst h; simp [cachedSender_queue]
  · simp [h]

@[simp]
theorem ensureCache_claimant (sm : senderMonitor) (a : Address) (now : Int) :
    (ensureCache sm a now).claimant = sm.claimant := rfl

@[simp]
theorem ensureCache_broker (sm : senderMonitor) (a : Address) (now : Int) :
    (ensureCache sm a now).broker = sm.broker := rfl

@[simp]
theorem ensureCache_smgr (sm : senderMonitor) (a : Address) (now : Int) :
    (ensureCache sm a now).smgr = sm.smgr := rfl

@[simp]
theorem ensureCache_tm (sm : senderMonitor) (a : Address) (now : Int) :
    (ensureCache sm a now).tm = sm.tm := rfl

@[simp]
theorem ensureCache_storeAdd (sm : senderMonitor) (a : Address) (now : Int) :
    (ensureCache sm a now).storeAdd = sm.storeAdd := rfl

/-- `reserveAlloc` only reads the immutable collaborator fields, so any
senders-map update leaves it unchanged. -/
theorem reserveAlloc_setSender (sm : senderMonitor) (a : Address) (rs : remoteSender)
    (addr : Address) :
    reserveAlloc (setSender sm a rs) addr = reserveAlloc sm addr := rfl

theorem reserveAlloc_ensureCache (sm : senderMonitor) (a : Address) (now : Int)
    (addr : Address) :
    reserveAlloc (ensureCache sm a now) addr = reserveAlloc sm addr := rfl

/-- The `Except` component of `MaxFloat` only depends on the pre-call
state: `ensureCache` changes neither the collaborators nor any pending
amount. -/
theorem MaxFloat_snd (sm : senderMonitor) (addr : Address) (now : Int) :
    (MaxFloat sm addr now).2 = maxFloat sm addr := by
  rw [MaxFloat, maxFloat, maxFloat, reserveAlloc_ensureCache]
  cases reserveAlloc sm addr <;> simp

@[simp]
theorem MaxFloat_fst (sm : senderMonitor) (addr : Address) (now : Int) :
    (MaxFloat sm addr now).1 = ensureCache sm addr now := rfl

/-- The second component of `AddFloat`, in terms of the pre-state. -/
theorem AddFloat_snd (sm : senderMonitor) (addr : Address) (amount : Int) (now : Int) :
    (AddFloat sm addr amount now).2 =
      if pendingOf sm addr < amount then
        some "cannot subtract from insufficient pendingAmount"
      else none := by
  rw [AddFloat, cachedSender_pendingAmount]
  split <;> simp

/-- On the error path `AddFloat` leaves exactly the `ensureCache`d state. -/
theorem AddFloat_fst_of_lt (sm : senderMonitor) (addr : Address) (amount : Int) (now : Int)
    (h : pendingOf sm addr < amount) :
    (AddFloat sm addr amount now).1 = ensureCache sm addr now := by
  rw [AddFloat, cachedSender_pendingAmount]
  simp [h]

theorem pendingOf_AddFloat (sm : senderMonitor) (addr : Address) (amount : Int) (now : Int)
    (b : Address) :
    pendingOf (AddFloat sm addr amount now).1 b =
      if b = addr ∧ amount ≤ pendingOf sm addr then pendingOf sm addr - amount
      else pendingOf sm b := by
  rw [AddFloat, cachedSender_pendingAmount]
  by_cases hlt : pendingOf sm addr < amount
  · simp [hlt, not_le.mpr hlt]
  · by_cases hb : b = addr
    · subst hb
      simp [hlt, not_lt.mp hlt, pendingOf_setSender, cachedSender_pendingAmount]
    · simp [hlt, hb, pendingOf_setSender]

theorem queueOf_AddFloat (sm : senderMonitor) (addr : Address) (amount : Int) (now : Int)
    (b : Address) :
    queueOf (AddFloat sm addr amount now).1 b = queueOf sm b := by
  rw [AddFloat, cachedSender_pendingAmount]
  by_cases hlt : pendingOf sm addr < amount
  · simp [hlt]
  · by_cases hb : b = addr
    · subst hb
      simp [hlt, queueOf_setSender, cachedSender_queue]
    · simp [hlt, hb, queueOf_setSender]

theorem pendingOf_SubFloat (sm : senderMonitor) (addr : Address) (amount : Int) (now : Int)
    (b : Address) :
    pendingOf (SubFloat sm addr amount now) b =
      if b = addr then pendingOf sm addr + amount else pendingOf sm b := by
  rw [SubFloat, cachedSender_pendingAmount]
  by_cases hb : b = addr
  · subst hb; simp [pendingOf_setSender]
  · simp [hb, pendingOf_setSender]

theorem queueOf_SubFloat (sm : senderMonitor) (addr : Address) (amount : Int) (now : Int)
    (b : Address) :
    queueOf (SubFloat sm addr amount now) b = queueOf sm b := by
  rw [SubFloat]
  by_cases hb : b = addr
  · subst hb; simp [queueOf_setSender, cachedSender_queue]
  · simp [hb, queueOf_setSender]

@[simp]
theorem SubFloat_broker (sm : senderMonitor) (addr : Address) (amount : Int) (now : Int) :
    (SubFloat sm addr amount now).broker = sm.broker := rfl

theorem pendingOf_QueueTicket (sm : senderMonitor) (t : SignedTicket) (now : Int)
    (b : Address) :
    pendingOf (QueueTicket sm t now).1 b = pendingOf sm b := by
  rw [QueueTicket]
  by_cases hs : sm.storeAdd t
  · by_cases hb : b = t.sender
    · subst hb
      simp [hs, pendingOf_setSender, cachedSender_pendingAmount]
    · simp [hs, hb, pendingOf_setSender]
  · simp [hs]

theorem queueOf_QueueTicket (sm : senderMonitor) (t : SignedTicket) (now : Int)
    (b : Address) :
    queueOf (QueueTicket sm t now).1 b =
      if b = t.sender ∧ sm.storeAdd t then queueOf sm t.sender ++ [t] else queueOf sm b := by
  rw [QueueTicket]
  by_cases hs : sm.storeAdd t
  · by_cases hb : b = t.sender
    · subst hb
      simp [hs, queueOf_setSender, cachedSender_queue]
    · simp [hs, hb, queueOf_setSender]
  · simp [hs]

theorem QueueTicket_snd (sm : senderMonitor) (t : SignedTicket) (now : Int) :
    (QueueTicket sm t now).2 = if sm.storeAdd t then none else some "ticket store error" := by
  rw [QueueTicket]
  split <;> simp_all

/-! ### Claim theorems -/

/-- Claim C1: whenever `GetSenderInfo` succeeds, `MaxFloat(addr)` returns
`reserveAlloc(addr) - pendingAmount[addr]`, where `reserveAlloc(addr) =
(FundsRemaining + ClaimedInCurrentRound) / poolSize - claimedReserve(addr,
claimant)` and `reserveAlloc(addr) = 0` when the pool size is 0; on the
non-negative reserves and positive pool sizes involved, the `big.Int`
Euclidean division agrees with truncating division (`Int.tdiv`). -/
theorem C1_maxFloat_formula (sm : senderMonitor) (addr : Address) (now : Int)
    (info : SenderInfo) (h : sm.smgr.getSenderInfo addr = (info, none)) :
    (MaxFloat sm addr now).2 =
      .ok ((if sm.tm.getTranscoderPoolSize = 0 then 0
            else (info.reserve.fundsRemaining + info.reserve.claimedInCurrentRound)
                   / sm.tm.getTranscoderPoolSize
                 - (sm.smgr.claimedReserve addr sm.claimant).1)
           - pendingOf sm addr)
    ∧ (0 ≤ info.reserve.fundsRemaining + info.reserve.claimedInCurrentRound →
        0 ≤ sm.tm.getTranscoderPoolSize →
        (info.reserve.fundsRemaining + info.reserve.claimedInCurrentRound)
            / sm.tm.getTranscoderPoolSize
          = (info.reserve.fundsRemaining + info.reserve.claimedInCurrentRound).tdiv
              sm.tm.getTranscoderPoolSize) := by
  have hra : reserveAlloc sm addr =
      .ok (if sm.tm.getTranscoderPoolSize = 0 then 0
           else (info.reserve.fundsRemaining + info.reserve.claimedInCurrentRound)
                  / sm.tm.getTranscoderPoolSize
                - (sm.smgr.claimedReserve addr sm.claimant).1) := by
    rw [reserveAlloc, h]
    by_cases hp : sm.tm.getTranscoderPoolSize = 0 <;> simp_all
  constructor
  · rw [MaxFloat_snd, maxFloat, hra]
  · intro h1 h2
    exact (Int.tdiv_eq_ediv h1 h2).symm

/-- Claim C1 witness: on the concrete monitor `sm0` (reserve 100 + 20,
pool size 3, claimed 5, nothing pending) `MaxFloat` evaluates to
`120 / 3 - 5 - 0 = 35`. -/
theorem C1_witness : (MaxFloat sm0 9 0).2 = .ok 35 := by
  have h := C1_maxFloat_formula sm0 9 0 info0 rfl
  rw [h.1]
  decide

/-- Claim C4 counterexample: on a fresh monitor, `AddFloat(9, 1)` returns
the insufficient-pending error, yet the state *is* modified: `ensureCache`
has created a cache entry for sender 9 (with `lastAccess` set to the call
time 5). -/
theorem C4_counterexample :
    (AddFloat sm0 9 1 5).2.isSome = true
    ∧ sm0.senders 9 = none
    ∧ (AddFloat sm0 9 1 5).1.senders 9 =
        some { pendingAmount := 0, queue := [], lastAccess := 5 } := by
  refine ⟨by decide, rfl, by decide⟩

/-- Claim C4 (amended): `AddFloat(addr, amount)` returns the
insufficient-pending error iff `amount > pendingAmount[addr]`; on that
error no sender's `pendingAmount` changes, but the state is still the
`ensureCache`d one (the sender's cache entry is created if absent and its
`lastAccess` refreshed); on success `pendingAmount[addr]` decreases by
exactly `amount` and every other sender is untouched. -/
theorem C4_addFloat_amended (sm : senderMonitor) (addr : Address) (amount : Int) (now : Int) :
    ((AddFloat sm addr amount now).2.isSome ↔ pendingOf sm addr < amount)
    ∧ (pendingOf sm addr < amount →
        (AddFloat sm addr amount now).1 = ensureCache sm addr now
        ∧ ∀ b, pendingOf (AddFloat sm addr amount now).1 b = pendingOf sm b)
    ∧ (amount ≤ pendingOf sm addr →
        (AddFloat sm addr amount now).2 = none
        ∧ pendingOf (AddFloat sm addr amount now).1 addr = pendingOf sm addr - amount
        ∧ ∀ b, b ≠ addr → pendingOf (AddFloat sm addr amount now).1 b = pendingOf sm b) := by
  refine ⟨?_, fun h => ⟨AddFloat_fst_of_lt sm addr amount now h, fun b => ?_⟩,
    fun h => ⟨?_, ?_, fun b hb => ?_⟩⟩
  · rw [AddFloat_snd]
    split <;> simp_all
  · rw [pendingOf_AddFloat]
    simp [not_le.mpr h]
  · rw [AddFloat_snd]
    simp [not_lt.mpr h]
  · rw [pendingOf_AddFloat]
    simp [h]
  · rw [pendingOf_AddFloat]
    simp [hb]

/-- Claim C6 counterexample (mirroring `TestNewAdjustedTx`): with
`gasFeeCap = 1000` and `maxGasPrice = 1100 ≥ 1000`, `newAdjustedTx` is
*not* the identity — the fee cap is raised to 1100 and the hash changes. -/
theorem C6_counterexample :
    tx1006.gasFeeCap ≤ 1100
    ∧ newAdjustedTx { maxGasPrice := some 1100 } tx1006 ≠ tx1006 := by
  refine ⟨by decide, by decide⟩

/-- Claim C6 (amended): `newAdjustedTx` is the identity when
`maxGasPrice` is nil; whenever `maxGasPrice` is non-nil — even when
`maxGasPrice ≥ tx.gasFeeCap` — it returns the copy of `tx` with
`gasFeeCap = maxGasPrice` and every other field unchanged. -/
theorem C6_newAdjustedTx_amended (tx : Transaction) (m : Int) :
    newAdjustedTx { maxGasPrice := none } tx = tx
    ∧ newAdjustedTx { maxGasPrice := some m } tx = { tx with gasFeeCap := m } :=
  ⟨rfl, rfl⟩

/-- Claim C7 counterexample: with a collaborator whose `ClaimedReserve`
always fails, `MaxFloat` still returns a successful value (35): the
`ClaimedReserve` error is bound to `err` in `reserveAlloc` and never
inspected. -/
theorem C7_counterexample :
    (smClaimErr.smgr.claimedReserve 9 smClaimErr.claimant).2 = some "ClaimedReserve error"
    ∧ (MaxFloat smClaimErr 9 0).2 = .ok 35 := by
  refine ⟨rfl, by decide⟩

/-- Claim C7 (amended): `MaxFloat(addr)` returns an error iff
`GetSenderInfo` fails (and it propagates exactly that error); a
`ClaimedReserve` failure is silently ignored. -/
theorem C7_maxFloat_error_iff (sm : senderMonitor) (addr : Address) (now : Int) :
    ((∃ e, (MaxFloat sm addr now).2 = .error e) ↔
      (∃ e, (sm.smgr.getSenderInfo addr).2 = some e))
    ∧ (∀ e, (sm.smgr.getSenderInfo addr).2 = some e →
        (MaxFloat sm addr now).2 = .error e) := by
  rw [MaxFloat_snd, maxFloat, reserveAlloc]
  cases h : (sm.smgr.getSenderInfo addr).2 with
  | none => by_cases hp : sm.tm.getTranscoderPoolSize = 0 <;> simp_all
  | some e => simp

/-- Claim C8: given `GetSenderInfo` succeeds and the withdraw round is a
non-negative `int64`-representable value, `ValidateSender(addr)` fails iff
`withdrawRound ≠ 0 ∧ withdrawRound ≤ lastInitializedRound + 1`; in
particular `withdrawRound = 0` always succeeds and any withdraw round
strictly greater than `lastInitializedRound + 1` succeeds. -/
theorem C8_validateSender (sm : senderMonitor) (addr : Address) (info : SenderInfo)
    (h : sm.smgr.getSenderInfo addr = (info, none))
    (h0 : 0 ≤ info.withdrawRound) (h1 : info.withdrawRound < 2 ^ 63) :
    (ValidateSender sm addr).isSome ↔
      (info.withdrawRound ≠ 0 ∧ info.withdrawRound ≤ sm.tm.lastInitializedRound + 1) := by
  have ht : toInt64 info.withdrawRound = info.withdrawRound := by
    rw [toInt64, Int.emod_eq_of_lt (by omega) (by omega)]
    omega
  rw [ValidateSender, h]
  simp only [ht]
  split <;> simp_all

/-- Claim C8 witness: on `sm8` (withdraw round 5, last initialized round
10), `ValidateSender` fails, since `5 ≠ 0` and `5 ≤ 11`. -/
theorem C8_witness : (ValidateSender sm8 9).isSome = true := by
  have h := C8_validateSender sm8 9 info8 rfl (by decide) (by decide)
  exact h.mpr ⟨by decide, by decide⟩

/-- Claim C9: for non-negative `x` and `p`, `applyPriceBump x p` is the
floor of `x * (100 + p) / 100` (characterized by the two bounds),
`applyPriceBump x 0 = x`, and `applyPriceBump x ·` is non-decreasing. -/
theorem C9_applyPriceBump (x p q : Int) (hx : 0 ≤ x) (_hp : 0 ≤ p) (hpq : p ≤ q) :
    (100 * applyPriceBump x p ≤ x * (100 + p)
      ∧ x * (100 + p) < 100 * (applyPriceBump x p + 1))
    ∧ applyPriceBump x 0 = x
    ∧ applyPriceBump x p ≤ applyPriceBump x q := by
  refine ⟨⟨?_, ?_⟩, ?_, ?_⟩
  · have hd := Int.ediv_add_emod (x * (100 + p)) 100
    have hm := Int.emod_nonneg (x * (100 + p)) (by norm_num : (100:Int) ≠ 0)
    rw [applyPriceBump]
    omega
  · have hd := Int.ediv_add_emod (x * (100 + p)) 100
    have hm := Int.emod_lt_of_pos (x * (100 + p)) (by norm_num : (0:Int) < 100)
    rw [applyPriceBump]
    omega
  · rw [applyPriceBump]
    norm_num
  · rw [applyPriceBump, applyPriceBump]
    exact Int.ediv_le_ediv (by norm_num) (mul_le_mul_of_nonneg_left (by omega) hx)

/-- Claim C9 witness: the values pinned by `TestApplyPriceBump`: bump 11
on 500 gives 555 (within the floor bounds), bump 0 is the identity, and
bump 17 dominates bump 11. -/
theorem C9_witness :
    ((100 * applyPriceBump 500 11 ≤ 500 * (100 + 11)
      ∧ 500 * (100 + 11) < 100 * (applyPriceBump 500 11 + 1))
     ∧ applyPriceBump 500 0 = 500
     ∧ applyPriceBump 500 11 ≤ applyPriceBump 500 17) :=
  C9_applyPriceBump 500 11 17 (by decide) (by decide) (by decide)

/-- `SubFloat` immediately followed by the deferred `AddFloat` of the same
amount restores the sender's pending amount, provided it was non-negative
(so that `AddFloat` cannot fail). -/
theorem pendingOf_SubFloat_AddFloat (sm : senderMonitor) (a : Address) (v : Int)
    (now : Int) (hp : 0 ≤ pendingOf sm a) :
    pendingOf (AddFloat (SubFloat sm a v now) a v now).1 a = pendingOf sm a := by
  have hs : pendingOf (SubFloat sm a v now) a = pendingOf sm a + v := by
    rw [pendingOf_SubFloat]
    simp
  rw [pendingOf_AddFloat, hs]
  have hle : v ≤ pendingOf sm a + v := by omega
  simp only [hle, and_self, if_pos rfl, if_true, and_true]
  omega

/-- Claim C2: once the float checks pass (so that `SubFloat(sender,
faceValue)` executes), every exit path of `redeemWinningTicket` — broker
submission error, `CheckTx` error, or confirmed redemption — runs the
deferred `AddFloat(sender, faceValue)` exactly once (the event trace is
exactly `[sub faceValue, add faceValue]`), and the sender's
`pendingAmount` is unchanged net over the attempt. -/
theorem C2_float_restored (sm : senderMonitor) (t : SignedTicket) (now : Int) (mf : Int)
    (hp : 0 ≤ pendingOf sm t.sender)
    (hmf : (MaxFloat sm t.sender now).2 = .ok mf)
    (h1 : 0 < mf) (h2 : t.faceValue ≤ mf) :
    (redeemWinningTicket sm t now).2.2 = [.sub t.faceValue, .add t.faceValue]
    ∧ pendingOf (redeemWinningTicket sm t now).1 t.sender = pendingOf sm t.sender := by
  have hnot1 : ¬ mf ≤ 0 := not_le.mpr h1
  have hnot2 : ¬ mf < t.faceValue := not_lt.mpr h2
  have hpe : 0 ≤ pendingOf (MaxFloat sm t.sender now).1 t.sender := by
    rw [MaxFloat_fst, pendingOf_ensureCache]
    exact hp
  simp only [redeemWinningTicket]
  rw [hmf]
  simp only [hnot1, hnot2, if_false]
  have hrestore :
      pendingOf
        (AddFloat (SubFloat (MaxFloat sm t.sender now).1 t.sender t.faceValue now)
          t.sender t.faceValue now).1 t.sender = pendingOf sm t.sender := by
    rw [pendingOf_SubFloat_AddFloat _ _ _ _ hpe, MaxFloat_fst, pendingOf_ensureCache]
  split
  · exact ⟨rfl, hrestore⟩
  · split
    · exact ⟨rfl, hrestore⟩
    · exact ⟨rfl, hrestore⟩

/-- Claim C2 witness: on `sm0` (max float 35) with a face-value-30 ticket
and an always-succeeding broker, the attempt's trace is exactly the
`SubFloat` and the restoring `AddFloat`, and the pending amount is
unchanged. -/
theorem C2_witness :
    (redeemWinningTicket sm0 ticket0 0).2.2 = [.sub ticket0.faceValue, .add ticket0.faceValue]
    ∧ pendingOf (redeemWinningTicket sm0 ticket0 0).1 ticket0.sender =
        pendingOf sm0 ticket0.sender :=
  C2_float_restored sm0 ticket0 0 35 (by decide) (by decide) (by decide) (by decide)

/-- Each single `AddFloat` / `SubFloat` / `QueueTicket` call with a
non-negative amount preserves non-negativity of every pending amount. -/
theorem applyOp_pending_nonneg (sm : senderMonitor) (op : MonitorOp)
    (hop : opAmountNonneg op) (hinv : ∀ b, 0 ≤ pendingOf sm b) (a : Address) :
    0 ≤ pendingOf (applyOp sm op) a := by
  cases op with
  | addF addr amount now =>
    rw [applyOp, pendingOf_AddFloat]
    split
    · next hcond =>
      have := hinv addr
      omega
    · exact hinv a
  | subF addr amount now =>
    rw [applyOp, pendingOf_SubFloat]
    split
    · have := hinv addr
      have hamt : 0 ≤ amount := hop
      omega
    · exact hinv a
  | queueT t now =>
    rw [applyOp, pendingOf_QueueTicket]
    exact hinv a

/-- Non-negativity of all pending amounts is preserved by any finite
sequence of float-mutating operations with non-negative amounts. -/
theorem runOps_pending_nonneg (sm : senderMonitor) (ops : List MonitorOp)
    (hinv : ∀ b, 0 ≤ pendingOf sm b) (h : ∀ op ∈ ops, opAmountNonneg op) (a : Address) :
    0 ≤ pendingOf (runOps sm ops) a := by
  induction ops generalizing sm with
  | nil => exact hinv a
  | cons op ops ih =>
    rw [runOps, List.foldl_cons]
    exact ih (applyOp sm op)
      (fun b => applyOp_pending_nonneg sm op (h op (by simp)) hinv b)
      (fun o ho => h o (by simp [ho]))

/-- Claim C3: starting from a fresh monitor, after any finite sequence of
`AddFloat` / `SubFloat` / `QueueTicket` calls with non-negative amounts,
`pendingAmount[s] ≥ 0` holds for every sender `s` (every prefix of a
sequence being itself such a sequence, the invariant holds after every
call). -/
theorem C3_pending_nonneg (claimant : Address) (broker : Broker) (smgr : SenderManager)
    (tm : TimeManager) (storeAdd : SignedTicket → Bool) (ops : List MonitorOp)
    (h : ∀ op ∈ ops, opAmountNonneg op) (a : Address) :
    0 ≤ pendingOf (runOps (NewSenderMonitor claimant broker smgr tm storeAdd) ops) a :=
  runOps_pending_nonneg (NewSenderMonitor claimant broker smgr tm storeAdd) ops
    (fun _ => le_refl 0) h a

/-- Claim C3 witness: a concrete interleaving (`SubFloat 5`, `AddFloat 3`,
`QueueTicket`, `AddFloat 9`) on a fresh monitor leaves sender 9's pending
amount non-negative. -/
theorem C3_witness :
    0 ≤ pendingOf (runOps (NewSenderMonitor 0 broker0 smgr0 tm0 (fun _ => true)) ops0) 9 :=
  C3_pending_nonneg 0 broker0 smgr0 tm0 (fun _ => true) ops0 (by decide) 9

/-- Claim C5: a ticket processed by `redeemWinningTicket` is re-queued
(the trace contains a `queued` event) iff the float checks fail — the
computed max float is `≤ 0` or `< faceValue`; in particular a
`MaxFloat` error, a broker error or a `CheckTx` error never re-queues.
Whenever the ticket is re-queued, every sender's `pendingAmount` is left
unchanged. -/
theorem C5_requeue_iff (sm : senderMonitor) (t : SignedTicket) (now : Int) :
    (FloatEvent.queued ∈ (redeemWinningTicket sm t now).2.2 ↔
      (∃ mf, (MaxFloat sm t.sender now).2 = .ok mf ∧ (mf ≤ 0 ∨ mf < t.faceValue)))
    ∧ (FloatEvent.queued ∈ (redeemWinningTicket sm t now).2.2 →
        ∀ b, pendingOf (redeemWinningTicket sm t now).1 b = pendingOf sm b) := by
  rcases hmf : (MaxFloat sm t.sender now).2 with e | mf
  · have hr : redeemWinningTicket sm t now = ((MaxFloat sm t.sender now).1, some e, []) := by
      simp only [redeemWinningTicket]
      rw [hmf]
    rw [hr]
    simp [hmf]
  · by_cases hle : mf ≤ 0
    · have hr : redeemWinningTicket sm t now =
          ((QueueTicket (MaxFloat sm t.sender now).1 t now).1, some "max float is zero",
            [.queued]) := by
        simp only [redeemWinningTicket]
        rw [hmf]
        simp [hle]
      rw [hr]
      refine ⟨⟨fun _ => ⟨mf, rfl, Or.inl hle⟩, fun _ => by simp⟩, fun _ b => ?_⟩
      rw [pendingOf_QueueTicket, MaxFloat_fst, pendingOf_ensureCache]
    · by_cases hlt : mf < t.faceValue
      · have hr : redeemWinningTicket sm t now =
            ((QueueTicket (MaxFloat sm t.sender now).1 t now).1, some "insufficient max float",
              [.queued]) := by
          simp only [redeemWinningTicket]
          rw [hmf]
          simp [hle, hlt]
        rw [hr]
        refine ⟨⟨fun _ => ⟨mf, rfl, Or.inr hlt⟩, fun _ => by simp⟩, fun _ b => ?_⟩
        rw [pendingOf_QueueTicket, MaxFloat_fst, pendingOf_ensureCache]
      · have hq : FloatEvent.queued ∉ (redeemWinningTicket sm t now).2.2 := by
          simp only [redeemWinningTicket]
          rw [hmf]
          simp only [hle, hlt, if_false]
          split
          · simp
          · split
            · simp
            · simp
        refine ⟨⟨fun h => absurd h hq, ?_⟩, fun h => absurd h hq⟩
        rintro ⟨mf', hmf', hfail⟩
        cases hmf'
        exact absurd hfail (by simp [hle, hlt])

/-- The error result of `redeemWinningTicket` when the float checks fail
is exactly the float-condition error, independent of the ticket store. -/
theorem redeem_snd_of_float_fail (sm : senderMonitor) (t : SignedTicket) (now : Int)
    (mf : Int) (hmf : (MaxFloat sm t.sender now).2 = .ok mf)
    (hfail : mf ≤ 0 ∨ mf < t.faceValue) :
    (redeemWinningTicket sm t now).2.1 =
      some (if mf ≤ 0 then "max float is zero" else "insufficient max float") := by
  simp only [redeemWinningTicket]
  rw [hmf]
  by_cases hle : mf ≤ 0
  · simp [hle]
  · have hlt : mf < t.faceValue := hfail.resolve_left hle
    simp [hle, hlt]

/-- The `Except` component of `MaxFloat` does not depend on the ticket
store. -/
theorem MaxFloat_snd_storeAdd (sm : senderMonitor) (f : SignedTicket → Bool)
    (a : Address) (now : Int) :
    (MaxFloat { sm with storeAdd := f } a now).2 = (MaxFloat sm a now).2 := rfl

/-- Claim C10: when `redeemWinningTicket` re-queues a ticket because the
max float is zero or insufficient, the error returned by `QueueTicket` is
discarded: with a ticket store whose `Add` fails, the queue is left
unchanged (the ticket is silently dropped) and the caller still receives
exactly the float-condition error — the same error as with a succeeding
store, so the re-queue failure is unobservable. -/
theorem C10_queueError_discarded (sm : senderMonitor) (t : SignedTicket) (now : Int)
    (mf : Int) (b : Address)
    (hstore : sm.storeAdd t = false)
    (hmf : (MaxFloat sm t.sender now).2 = .ok mf)
    (hfail : mf ≤ 0 ∨ mf < t.faceValue) :
    (redeemWinningTicket sm t now).2.1 =
      some (if mf ≤ 0 then "max float is zero" else "insufficient max float")
    ∧ queueOf (redeemWinningTicket sm t now).1 b = queueOf sm b
    ∧ (redeemWinningTicket sm t now).2.1 =
        (redeemWinningTicket { sm with storeAdd := fun _ => true } t now).2.1 := by
  have hmf' : (MaxFloat { sm with storeAdd := fun _ => true } t.sender now).2 = .ok mf := by
    rw [MaxFloat_snd_storeAdd]
    exact hmf
  refine ⟨redeem_snd_of_float_fail sm t now mf hmf hfail, ?_,
    (redeem_snd_of_float_fail sm t now mf hmf hfail).trans
      (redeem_snd_of_float_fail { sm with storeAdd := fun _ => true } t now mf hmf' hfail).symm⟩
  simp only [redeemWinningTicket]
  rw [hmf]
  by_cases hle : mf ≤ 0
  · simp only [hle, if_true]
    rw [queueOf_QueueTicket]
    simp [hstore]
  · have hlt : mf < t.faceValue := hfail.resolve_left hle
    simp only [hle, hlt, if_false, if_true]
    rw [queueOf_QueueTicket]
    simp [hstore]

/-- Claim C10 witness: on a monitor whose ticket store rejects appends, a
face-value-50 ticket against max float 35 yields the insufficient-float
error (identical to the succeeding-store run) and leaves the queue
unchanged. -/
theorem C10_witness :
    (redeemWinningTicket smNoStore ticketBig 0).2.1 =
      some (if (35:Int) ≤ 0 then "max float is zero" else "insufficient max float")
    ∧ queueOf (redeemWinningTicket smNoStore ticketBig 0).1 9 = queueOf smNoStore 9
    ∧ (redeemWinningTicket smNoStore ticketBig 0).2.1 =
        (redeemWinningTicket { smNoStore with storeAdd := fun _ => true } ticketBig 0).2.1 :=
  C10_queueError_discarded smNoStore ticketBig 0 35 9 rfl (by decide) (Or.inr (by decide))

end PM
